import Mathlib

/-!
Shallow embedding of the client code of the AWS_BookRecomandation repository:
the API service layer (src/services/api.ts), the auth context
(src/contexts/AuthContext.tsx) and the reading-list mutation handlers of the
BookDetail and ReadingListDetail pages. JSON values are modelled by an
inductive type, HTTP responses by a record holding the status and the decoded
body, and the runtime JSON parser (JSON.parse) by an explicit function
parameter. Each endpoint function returns the list of effects it performs
(HTTP requests, timers) together with its result; a thrown exception is an
Except.error carrying the message of the Error object.
-/

/-- JSON values as decoded by response.json or produced by JSON.parse.
Numbers are modelled as integers; no property under study depends on
fractional values. An absent field plays the role of undefined. -/
inductive Json where
  | null
  | bool (b : Bool)
  | num (n : Int)
  | str (s : String)
  | arr (elems : List Json)
  | obj (fields : List (String × Json))

/-- JS truthiness of a JSON value: null, false, 0 and the empty string are
falsy, every array and object is truthy. -/
def Json.truthy : Json → Bool
  | .null => false
  | .bool b => b
  | .num n => n != 0
  | .str s => s != ""
  | .arr _ => true
  | .obj _ => true

/-- Field lookup on a decoded JSON value that is known not to be null: the
first binding of the key in an object, none (undefined) otherwise. The
run-time property read is getProp, which throws on a null receiver; this
total lookup is only meaningful, and only used by the embedding, where the
receiver cannot be null. -/
def Json.getField : Json → String → Option Json
  | .obj fields, key => fields.lookup key
  | _, _ => none

/-- The message of the TypeError JavaScript raises for a property read on a
null receiver. -/
def typeErrorNull (key : String) : String :=
  "TypeError: Cannot read properties of null (reading " ++ key ++ ")"

/-- JS property read as it executes: a read on null throws a TypeError; a
read on an object yields the binding of the key, or undefined when absent; a
read on any other primitive or on an array yields undefined for the keys
this client uses. -/
def Json.getProp : Json → String → Except String (Option Json)
  | .null, key => .error (typeErrorNull key)
  | .obj fields, key => .ok (fields.lookup key)
  | _, _ => .ok none

/-- JS property assignment: replace the value of an existing key in place, or
append a new binding; identity on non-objects. -/
def Json.setField : Json → String → Json → Json
  | .obj fields, key, v =>
      if fields.any (fun f => f.1 == key) then
        .obj (fields.map (fun f => if f.1 == key then (key, v) else f))
      else
        .obj (fields ++ [(key, v)])
  | j, _, _ => j

/-- JS delete of a property: drop the bindings of the key; identity on
non-objects. -/
def Json.delField : Json → String → Json
  | .obj fields, key => .obj (fields.filter (fun f => f.1 != key))
  | j, _ => j

/-- Whether the value is an array, as Array.isArray decides it. -/
def Json.isArr : Json → Bool
  | .arr _ => true
  | _ => false

mutual

/-- JS string coercion of a value, as the Error constructor and template
literals apply it: strings pass through, numbers and booleans print, arrays
join their elements with commas, plain objects print as object Object in
brackets. -/
def Json.coerce : Json → String
  | .null => "null"
  | .bool true => "true"
  | .bool false => "false"
  | .num n => toString n
  | .str s => s
  | .arr elems => String.intercalate "," (Json.coerceElems elems)
  | .obj _ => "[object Object]"
termination_by j => (sizeOf j, 0)

/-- Element coercion used by the array join: null elements print as the empty
string, everything else coerces as usual. -/
def Json.coerceElem : Json → String
  | .null => ""
  | j => Json.coerce j
termination_by j => (sizeOf j, 1)

/-- Coerce every element of a list of JSON values for an array join. -/
def Json.coerceElems : List Json → List String
  | [] => []
  | j :: js => Json.coerceElem j :: Json.coerceElems js
termination_by js => (sizeOf js, 2)

end

/-- Truthiness of a property of a decoded value: false when the field is
absent (undefined). -/
def Json.truthyField (j : Json) (key : String) : Bool :=
  match j.getField key with
  | some v => v.truthy
  | none => false

/-- The Lambda-proxy branch condition of the API layer applied to an already
read body property, literally data.body and-also typeof data.body equals
string: yields the string content when the property is present, string-typed
and truthy (non-empty). -/
def envelopeString : Option Json → Option String
  | some (.str s) => if s == "" then none else some s
  | _ => none

/-- The Lambda-proxy branch condition on a decoded value that is not null;
the run-time read of the body property is getProp and throws on null. -/
def Json.envelopeBody (j : Json) : Option String :=
  envelopeString (j.getField "body")

/-- The reading-list field repair of createReadingList and updateReadingList:
when the record carries a truthy books field and a falsy or absent bookIds
field, assign books to bookIds and delete books; otherwise leave the record
alone. -/
def repairBooksField (j : Json) : Json :=
  if j.truthyField "books" && !(j.truthyField "bookIds") then
    (j.setField "bookIds" ((j.getField "books").getD .null)).delField "books"
  else j

/-- The field repair as the code runs it: the first read of the guard,
parsedBody.books, throws a TypeError when the record is null; on every other
record no read can throw, the guard short-circuits as in repairBooksField,
and the pure repair applies. -/
def repairBooksFieldRun : Json → Except String Json
  | .null => .error (typeErrorNull "books")
  | j => .ok (repairBooksField j)

/-- An HTTP response as the fetch API presents it to the service layer: the
status code, the status text, and the outcome of response.json (which throws
on an undecodable body). -/
structure HttpResponse where
  status : Nat
  statusText : String
  jsonBody : Except String Json

/-- The ok flag of a fetch response: status in the 2xx range. -/
def HttpResponse.ok (r : HttpResponse) : Bool :=
  200 ≤ r.status && r.status ≤ 299

/-- Observable side effects of a service-layer call: an HTTP request to a
path under the base URL, or a timer (setTimeout). -/
inductive ApiEffect where
  | httpFetch (method : String) (path : String)
  | delay (ms : Nat)
deriving DecidableEq, Repr

/-- Outcome of a service-layer call: the effects performed and the settled
value of the returned promise. -/
structure ApiCall (α : Type) where
  effects : List ApiEffect
  result : Except String α

/-- A 2xx response with the given decoded body. -/
def okResponse (j : Json) : HttpResponse :=
  ⟨200, "OK", .ok j⟩

/-- Modelled from the spec: the Book record of the data model (the types
module of the repository is not part of the snapshot). The rating is kept
integral; no property under study reads it. -/
structure Book where
  id : String
  title : String
  author : String
  description : String
  genre : String
  publishedYear : Int
  isbn : String
  coverImage : String
  rating : Int
deriving DecidableEq, Repr

/-- Modelled from the spec: the ReadingList record of the data model (the
types module of the repository is not part of the snapshot). -/
structure ReadingList where
  id : String
  name : String
  description : Option String
  bookIds : List String
  createdAt : String
  updatedAt : String
deriving DecidableEq, Repr

/-- getBooks: one GET request to /books; non-2xx throws a message carrying
the status; a 2xx null body makes the read of its body property throw a
TypeError; otherwise the body is normalized by the Lambda-proxy rule, an
array is returned as is, and any other shape yields the empty list. -/
def getBooks (resp : HttpResponse) (parse : String → Except String Json) :
    ApiCall (List Json) :=
  { effects := [.httpFetch "GET" "/books"]
    result :=
      if !resp.ok then
        .error ("Failed to fetch books: " ++ toString resp.status ++ " " ++ resp.statusText)
      else
        match resp.jsonBody with
        | .error e => .error e
        | .ok data =>
          match data.getProp "body" with
          | .error e => .error e
          | .ok bodyProp =>
            let direct : Except String (List Json) :=
              match data with
              | .arr xs => .ok xs
              | _ => .ok []
            match envelopeString bodyProp with
            | some s =>
              match parse s with
              | .error e => .error e
              | .ok (.arr xs) => .ok xs
              | .ok _ => direct
            | none => direct }

/-- getBook: the mock implementation of this snapshot, resolving after a
300 ms timeout with the matching mock book, or null when no mock book
matches, and issuing no request. The mock catalog (src/services/mockData.ts)
is not part of the snapshot, so the list is a parameter. -/
def getBook (mockBooks : List Book) (id : String) : ApiCall (Option Book) :=
  { effects := [.delay 300]
    result := .ok (mockBooks.find? (fun b => b.id == id)) }

/-- createBook: one POST request to /books; non-2xx throws a message carrying
the status; a 2xx null body makes the read of its body property throw a
TypeError; otherwise the body is unwrapped by the Lambda-proxy rule and
returned. -/
def createBook (book : Json) (resp : HttpResponse)
    (parse : String → Except String Json) : ApiCall Json :=
  { effects := [.httpFetch "POST" "/books"]
    result :=
      if !resp.ok then
        .error ("Failed to create book: " ++ toString resp.status ++ " " ++ resp.statusText)
      else
        match resp.jsonBody with
        | .error e => .error e
        | .ok data =>
          match data.getProp "body" with
          | .error e => .error e
          | .ok bodyProp =>
            match envelopeString bodyProp with
            | some s => parse s
            | none => .ok data }

/-- updateBook: one PUT request to /books/id; otherwise as createBook. -/
def updateBook (id : String) (book : Json) (resp : HttpResponse)
    (parse : String → Except String Json) : ApiCall Json :=
  { effects := [.httpFetch "PUT" ("/books/" ++ id)]
    result :=
      if !resp.ok then
        .error ("Failed to update book: " ++ toString resp.status ++ " " ++ resp.statusText)
      else
        match resp.jsonBody with
        | .error e => .error e
        | .ok data =>
          match data.getProp "body" with
          | .error e => .error e
          | .ok bodyProp =>
            match envelopeString bodyProp with
            | some s => parse s
            | none => .ok data }

/-- deleteBook: throws before any request when the id argument is absent or
falsy; otherwise one DELETE request, and non-2xx throws a message carrying
the status. -/
def deleteBook (id : Option String) (resp : HttpResponse) : ApiCall Unit :=
  if !(match id with | some s => s != "" | none => false) then
    { effects := [], result := .error "Book ID is required for deletion" }
  else
    { effects := [.httpFetch "DELETE" ("/books/" ++ id.getD "")]
      result :=
        if !resp.ok then
          .error ("Failed to delete book: " ++ toString resp.status ++ " " ++ resp.statusText)
        else .ok () }

/-- The fixed fallback message of the 429 branch of getRecommendations. -/
def rateLimitDefaultMessage : String :=
  "AI service rate limit exceeded. Please try again in 24 hours."

/-- getRecommendations: one POST request to /recommendations. A 429 response
throws the coerced error field of the decoded error body when truthy, the
fixed rate-limit default otherwise, and a TypeError when that body is null;
any other non-2xx throws a fixed message. A 2xx null body, or a wrapped
body parsing to null, makes a property read throw a TypeError; otherwise
the body is accepted when it is, directly or after unwrapping, an array or
an object with an array recommendations field, and anything else throws. -/
def getRecommendations (query : String) (resp : HttpResponse)
    (parse : String → Except String Json) : ApiCall (List Json) :=
  { effects := [.httpFetch "POST" "/recommendations"]
    result :=
      if !resp.ok then
        if resp.status == 429 then
          match resp.jsonBody with
          | .error e => .error e
          | .ok errorData =>
            match errorData.getProp "error" with
            | .error e => .error e
            | .ok errProp =>
              let v := errProp.getD .null
              .error (if v.truthy then v.coerce else rateLimitDefaultMessage)
        else .error "Failed to get recommendations"
      else
        match resp.jsonBody with
        | .error e => .error e
        | .ok data =>
          match data.getProp "body" with
          | .error e => .error e
          | .ok bodyProp =>
            let directChecks : Except String (List Json) :=
              match (data.getField "recommendations").getD .null with
              | .arr xs => .ok xs
              | _ =>
                match data with
                | .arr xs => .ok xs
                | _ => .error "Unexpected API response format"
            match envelopeString bodyProp with
            | some s =>
              match parse s with
              | .error e => .error e
              | .ok parsedBody =>
                match parsedBody.getProp "recommendations" with
                | .error e => .error e
                | .ok recProp =>
                  match recProp.getD .null with
                  | .arr xs => .ok xs
                  | _ =>
                    match parsedBody with
                    | .arr xs => .ok xs
                    | _ => directChecks
            | none => directChecks }

/-- The error message getReadingLists builds for a non-2xx response: the
base message carrying the status, extended by the top-level message field of
the decoded error body when truthy, else by the message field of the
unwrapped body when truthy; a body that fails to decode or to parse leaves
the base message (the whole extraction sits in a try block). -/
def readingListsErrorMessage (resp : HttpResponse)
    (parse : String → Except String Json) : String :=
  let base := "Failed to fetch reading lists: " ++ toString resp.status ++ " " ++ resp.statusText
  match resp.jsonBody with
  | .error _ => base
  | .ok errorData =>
    if errorData.truthyField "message" then
      base ++ " - " ++ ((errorData.getField "message").getD .null).coerce
    else if errorData.truthyField "body" then
      let bodyVal := (errorData.getField "body").getD .null
      let parsedBody : Except String Json :=
        match bodyVal with
        | .str s => parse s
        | v => .ok v
      match parsedBody with
      | .error _ => base
      | .ok pb =>
        if pb.truthyField "message" then
          base ++ " - " ++ ((pb.getField "message").getD .null).coerce
        else base
    else base

/-- getReadingLists: one GET request to /reading-lists; non-2xx throws the
built error message; a 2xx null body makes the read of its body property
throw a TypeError; otherwise the body is unwrapped by the Lambda-proxy
rule, and a wrapped non-array or a direct non-array shape throws. -/
def getReadingLists (resp : HttpResponse)
    (parse : String → Except String Json) : ApiCall (List Json) :=
  { effects := [.httpFetch "GET" "/reading-lists"]
    result :=
      if !resp.ok then
        .error (readingListsErrorMessage resp parse)
      else
        match resp.jsonBody with
        | .error e => .error e
        | .ok data =>
          match data.getProp "body" with
          | .error e => .error e
          | .ok bodyProp =>
            match envelopeString bodyProp with
            | some s =>
              match parse s with
              | .error e => .error e
              | .ok (.arr xs) => .ok xs
              | .ok _ => .error "API response body is not an array"
            | none =>
              match data with
              | .arr xs => .ok xs
              | _ => .error "Unexpected API response format" }

/-- createReadingList: one POST request to /reading-lists; non-2xx throws a
message carrying the status. A 2xx null body, or a wrapped payload parsing
to null, makes a property read throw a TypeError. A wrapped 2xx payload is
otherwise returned after the books field repair with no further check; a
direct 2xx payload is returned after the repair only when it carries a
truthy bookIds or books field, and throws otherwise. -/
def createReadingList (list : Json) (resp : HttpResponse)
    (parse : String → Except String Json) : ApiCall Json :=
  { effects := [.httpFetch "POST" "/reading-lists"]
    result :=
      if !resp.ok then
        .error ("Failed to create reading list: " ++ toString resp.status ++ " " ++ resp.statusText)
      else
        match resp.jsonBody with
        | .error e => .error e
        | .ok data =>
          match data.getProp "body" with
          | .error e => .error e
          | .ok bodyProp =>
            match envelopeString bodyProp with
            | some s =>
              match parse s with
              | .error e => .error e
              | .ok parsedBody => repairBooksFieldRun parsedBody
            | none =>
              if data.truthyField "bookIds" || data.truthyField "books" then
                .ok (repairBooksField data)
              else
                .error "Unexpected API response format" }

/-- The error message updateReadingList builds for a non-2xx response: as
the getReadingLists one, except that the unwrapped body may supply the
message through its message field or, failing that, its error field. -/
def updateReadingListErrorMessage (resp : HttpResponse)
    (parse : String → Except String Json) : String :=
  let base := "Failed to update reading list: " ++ toString resp.status ++ " " ++ resp.statusText
  match resp.jsonBody with
  | .error _ => base
  | .ok errorData =>
    if errorData.truthyField "message" then
      base ++ " - " ++ ((errorData.getField "message").getD .null).coerce
    else if errorData.truthyField "body" then
      let bodyVal := (errorData.getField "body").getD .null
      let parsedBody : Except String Json :=
        match bodyVal with
        | .str s => parse s
        | v => .ok v
      match parsedBody with
      | .error _ => base
      | .ok pb =>
        if pb.truthyField "message" || pb.truthyField "error" then
          let m := (pb.getField "message").getD .null
          let e := (pb.getField "error").getD .null
          base ++ " - " ++ (if m.truthy then m else e).coerce
        else base
    else base

/-- updateReadingList: one PUT request to /reading-lists/id; non-2xx throws
the built error message; a 2xx body is normalized exactly as in
createReadingList, including its TypeError paths. -/
def updateReadingList (id : String) (list : Json) (resp : HttpResponse)
    (parse : String → Except String Json) : ApiCall Json :=
  { effects := [.httpFetch "PUT" ("/reading-lists/" ++ id)]
    result :=
      if !resp.ok then
        .error (updateReadingListErrorMessage resp parse)
      else
        match resp.jsonBody with
        | .error e => .error e
        | .ok data =>
          match data.getProp "body" with
          | .error e => .error e
          | .ok bodyProp =>
            match envelopeString bodyProp with
            | some s =>
              match parse s with
              | .error e => .error e
              | .ok parsedBody => repairBooksFieldRun parsedBody
            | none =>
              if data.truthyField "bookIds" || data.truthyField "books" then
                .ok (repairBooksField data)
              else
                .error "Unexpected API response format" }

/-- deleteReadingList: one DELETE request to /reading-lists/id; non-2xx
throws a message carrying the status. -/
def deleteReadingList (id : String) (resp : HttpResponse) : ApiCall Unit :=
  { effects := [.httpFetch "DELETE" ("/reading-lists/" ++ id)]
    result :=
      if !resp.ok then
        .error ("Failed to delete reading list: " ++ toString resp.status ++ " " ++ resp.statusText)
      else .ok () }

/-- getReviews: one GET request to /books/bookId/reviews; its 2xx
normalization is that of getBooks, throwing a TypeError at a null body and
absorbing every other unexpected shape into the empty list. -/
def getReviews (bookId : String) (resp : HttpResponse)
    (parse : String → Except String Json) : ApiCall (List Json) :=
  { effects := [.httpFetch "GET" ("/books/" ++ bookId ++ "/reviews")]
    result :=
      if !resp.ok then
        .error ("Failed to fetch reviews: " ++ toString resp.status ++ " " ++ resp.statusText)
      else
        match resp.jsonBody with
        | .error e => .error e
        | .ok data =>
          match data.getProp "body" with
          | .error e => .error e
          | .ok bodyProp =>
            let direct : Except String (List Json) :=
              match data with
              | .arr xs => .ok xs
              | _ => .ok []
            match envelopeString bodyProp with
            | some s =>
              match parse s with
              | .error e => .error e
              | .ok (.arr xs) => .ok xs
              | .ok _ => direct
            | none => direct }

/-- createReview: one POST request to /books/bookId/reviews; non-2xx throws
a message carrying the status; a 2xx null body makes the read of its body
property throw a TypeError; otherwise the body is unwrapped by the
Lambda-proxy rule and returned. -/
def createReview (bookId : String) (review : Json) (resp : HttpResponse)
    (parse : String → Except String Json) : ApiCall Json :=
  { effects := [.httpFetch "POST" ("/books/" ++ bookId ++ "/reviews")]
    result :=
      if !resp.ok then
        .error ("Failed to create review: " ++ toString resp.status ++ " " ++ resp.statusText)
      else
        match resp.jsonBody with
        | .error e => .error e
        | .ok data =>
          match data.getProp "body" with
          | .error e => .error e
          | .ok bodyProp =>
            match envelopeString bodyProp with
            | some s => parse s
            | none => .ok data }

/-- The full-record payload both page handlers pass to updateReadingList:
name, description and the complete bookIds sequence. -/
structure UpdatePayload where
  name : String
  description : Option String
  bookIds : List String
deriving DecidableEq, Repr

/-- The local component state of the BookDetail page that handleSelectList
touches or reads. -/
structure BookDetailState where
  book : Option Book
  readingLists : List ReadingList
  isModalOpen : Bool
  isAddingToList : Bool
deriving DecidableEq, Repr

/-- Observable outcome of one handleSelectList run: the final component
state, the success toast, the reported error, and the update request sent to
the server (none when no request was issued). -/
structure SelectListResult where
  state : BookDetailState
  notice : Option String
  errorMsg : Option String
  request : Option UpdatePayload
deriving DecidableEq, Repr

/-- handleSelectList of the BookDetail page: no-op without a loaded book;
otherwise find the chosen list, report when it is missing, show the
already-in-list notice and close the modal when the book id is present, and
otherwise append the id and send the full record to updateReadingList,
reporting its error or showing the added notice. The awaited server call is
modelled by the updateApi argument; its result value is discarded by the
source. -/
def handleSelectList (st : BookDetailState) (listId : String)
    (updateApi : UpdatePayload → Except String Unit) : SelectListResult :=
  match st.book with
  | none => ⟨st, none, none, none⟩
  | some b =>
    let st1 : BookDetailState := ⟨st.book, st.readingLists, st.isModalOpen, true⟩
    match st1.readingLists.find? (fun l => l.id == listId) with
    | none =>
      ⟨⟨st1.book, st1.readingLists, st1.isModalOpen, false⟩,
        none, some "Reading list not found", none⟩
    | some list =>
      if list.bookIds.contains b.id then
        ⟨⟨st1.book, st1.readingLists, false, false⟩,
          some "Book is already in this reading list!", none, none⟩
      else
        let updatedBookIds := list.bookIds ++ [b.id]
        let payload : UpdatePayload := ⟨list.name, list.description, updatedBookIds⟩
        match updateApi payload with
        | .error e =>
          ⟨⟨st1.book, st1.readingLists, st1.isModalOpen, false⟩,
            none, some e, some payload⟩
        | .ok _ =>
          ⟨⟨st1.book, st1.readingLists, false, false⟩,
            some ("Added \"" ++ b.title ++ "\" to \"" ++ list.name ++ "\"!"),
            none, some payload⟩

/-- The local component state of the ReadingListDetail page that
handleRemoveBook touches: the cached list record and the resolved books. -/
structure ListDetailState where
  readingList : Option ReadingList
  books : List Book
deriving DecidableEq, Repr

/-- Observable outcome of one handleRemoveBook run. -/
structure RemoveResult where
  state : ListDetailState
  notice : Option String
  errorMsg : Option String
  request : Option UpdatePayload
deriving DecidableEq, Repr

/-- handleRemoveBook of the ReadingListDetail page: no-op without a loaded
list; otherwise filter the id out of bookIds, await updateReadingList with
the full record, and only on success patch both the cached list record and
the resolved book set in the same transition; an error leaves the state
untouched and is reported. -/
def handleRemoveBook (st : ListDetailState) (bookId : String)
    (updateApi : UpdatePayload → Except String Unit) : RemoveResult :=
  match st.readingList with
  | none => ⟨st, none, none, none⟩
  | some list =>
    let updatedBookIds := list.bookIds.filter (fun i => i != bookId)
    let payload : UpdatePayload := ⟨list.name, list.description, updatedBookIds⟩
    match updateApi payload with
    | .error e => ⟨st, none, some e, some payload⟩
    | .ok _ =>
      ⟨⟨some ⟨list.id, list.name, list.description, updatedBookIds,
            list.createdAt, list.updatedAt⟩,
        st.books.filter (fun b => b.id != bookId)⟩,
        some "Book removed from list!", none, some payload⟩

/-- Client-side role of a user. -/
inductive Role where
  | admin
  | user
deriving DecidableEq, Repr

/-- Modelled from the spec: the User record of the data model (the types
module of the repository is not part of the snapshot). -/
structure User where
  id : String
  email : String
  name : String
  role : Role
  createdAt : String
deriving DecidableEq, Repr

/-- The static admin allow-list of the auth context. -/
def ADMIN_EMAILS : List String :=
  ["furkantahasaranda@gmail.com"]

/-- Role derivation: admin exactly when the lower-cased email is on the
allow-list. -/
def getUserRole (email : String) : Role :=
  if ADMIN_EMAILS.contains email.toLower then .admin else .user

/-- The state of the auth context a provider call reads and writes. -/
structure AuthState where
  user : Option User
  isLoading : Bool
deriving DecidableEq, Repr

/-- Outcome of one auth-context operation: the final context state and the
error rethrown to the caller, when any. -/
structure AuthResult where
  state : AuthState
  thrown : Option String
deriving DecidableEq, Repr

/-- The identity-provider user object getCurrentUser resolves with, reduced
to the fields the context reads. -/
structure AmplifyUser where
  userId : String
  username : String
deriving DecidableEq, Repr

/-- The attribute map fetchUserAttributes resolves with; absent attributes
are none. -/
structure UserAttributes where
  email : Option String
  name : Option String
deriving DecidableEq, Repr

/-- JS or-else on a possibly absent string: the left operand when present
and truthy (non-empty), the right operand otherwise. -/
def jsOrStr : Option String → String → String
  | some s, b => if s == "" then b else s
  | none, b => b

/-- login of the auth context: set the loading flag, sign in, and when
signed in resolve the current user and attributes and populate the user
state; any provider error is rethrown after logging; the finally step clears
the loading flag on every path. Provider calls are the three oracle
arguments; nowIso stands for the current time in ISO form. -/
def login (st : AuthState) (email password nowIso : String)
    (signInApi : String → String → Except String Bool)
    (getCurrentUserApi : Unit → Except String AmplifyUser)
    (fetchUserAttributesApi : Unit → Except String UserAttributes) : AuthResult :=
  match signInApi email password with
  | .error e => ⟨⟨st.user, false⟩, some e⟩
  | .ok isSignedIn =>
    if isSignedIn then
      match getCurrentUserApi () with
      | .error e => ⟨⟨st.user, false⟩, some e⟩
      | .ok u =>
        match fetchUserAttributesApi () with
        | .error e => ⟨⟨st.user, false⟩, some e⟩
        | .ok attributes =>
          let userEmail := jsOrStr attributes.email email
          ⟨⟨some ⟨u.userId, userEmail, jsOrStr attributes.name u.username,
                getUserRole userEmail, nowIso⟩, false⟩, none⟩
    else ⟨⟨st.user, false⟩, none⟩

/-- logout of the auth context: set the loading flag, sign out, clear the
user state on success, rethrow a provider error after logging; the finally
step clears the loading flag on every path. -/
def logout (st : AuthState) (signOutApi : Unit → Except String Unit) : AuthResult :=
  match signOutApi () with
  | .error e => ⟨⟨st.user, false⟩, some e⟩
  | .ok _ => ⟨⟨none, false⟩, none⟩

/-- signup of the auth context: set the loading flag, sign up with the email
and name attributes, rethrow a provider error after logging; the user state
is never written; the finally step clears the loading flag on every path. -/
def signup (st : AuthState) (email password name : String)
    (signUpApi : String → String → String → Except String Unit) : AuthResult :=
  match signUpApi email password name with
  | .error e => ⟨⟨st.user, false⟩, some e⟩
  | .ok _ => ⟨⟨st.user, false⟩, none⟩

/-- confirmSignup of the auth context: set the loading flag, confirm with
the code, rethrow a provider error after logging; the user state is never
written; the finally step clears the loading flag on every path. -/
def confirmSignup (st : AuthState) (email code : String)
    (confirmSignUpApi : String → String → Except String Unit) : AuthResult :=
  match confirmSignUpApi email code with
  | .error e => ⟨⟨st.user, false⟩, some e⟩
  | .ok _ => ⟨⟨st.user, false⟩, none⟩

/-- A concrete stand-in for the runtime JSON parser, defined on the handful
of strings the concrete instances below feed it. -/
def parseStub : String → Except String Json
  | "[]" => .ok (Json.arr [])
  | "\x7b\x7d" => .ok (Json.obj [])
  | "\x7b\"books\":null\x7d" => .ok (Json.obj [("books", Json.null)])
  | "\x7b\"books\":[\"b1\"]\x7d" => .ok (Json.obj [("books", Json.arr [Json.str "b1"])])
  | _ => .error "Unexpected token in JSON"

/-- A server-call oracle that acknowledges every update. -/
def okUpdate : UpdatePayload → Except String Unit :=
  fun _ => .ok ()

/-- A server-call oracle that fails every update with a fixed message. -/
def failUpdate : UpdatePayload → Except String Unit :=
  fun _ => .error "Request failed with status 500"

/-- A concrete book record with id a. -/
def bookA : Book :=
  ⟨"a", "Book A", "Author A", "about a", "genre", 2001, "isbn-a", "cover-a", 4⟩

/-- A concrete book record with id b. -/
def bookB : Book :=
  ⟨"b", "Book B", "Author B", "about b", "genre", 2002, "isbn-b", "cover-b", 5⟩

/-- A concrete reading list holding the ids a then b. -/
def exampleList : ReadingList :=
  ⟨"l1", "My List", none, ["a", "b"], "t0", "t1"⟩

/-- The ReadingListDetail state with exampleList loaded and both books
resolved. -/
def exampleDetailState : ListDetailState :=
  ⟨some exampleList, [bookA, bookB]⟩

/-- The needle occurs as a contiguous substring of the haystack. -/
def containsSubstr (needle hay : String) : Prop :=
  needle.data <:+: hay.data

instance (needle hay : String) : Decidable (containsSubstr needle hay) :=
  inferInstanceAs (Decidable (needle.data <:+: hay.data))

/-- A concrete book record with id c, not a member of exampleList. -/
def bookC : Book :=
  ⟨"c", "Book C", "Author C", "about c", "genre", 2003, "isbn-c", "cover-c", 3⟩

/-- The BookDetail state with bookA loaded and exampleList available. -/
def exampleBookState : BookDetailState :=
  ⟨some bookA, [exampleList], true, false⟩

/-- The BookDetail state with bookC loaded and exampleList available. -/
def exampleBookStateC : BookDetailState :=
  ⟨some bookC, [exampleList], true, false⟩

theorem containsSubstr_middle (a n b : String) : containsSubstr n (a ++ n ++ b) := by
  unfold containsSubstr
  exact ⟨a.data, b.data, by simp [String.data_append]⟩

/-- C4: adding a book whose id is already in the selected list is an
idempotent no-op: the handler produces the already-in-list notice, reports
no error, sends no update request and leaves the cached lists and book
untouched; otherwise it sends the full record with the id appended to the
complete bookIds sequence. -/
theorem c4_add_idempotent
    (st : BookDetailState) (listId : String)
    (updateApi : UpdatePayload → Except String Unit)
    (b : Book) (list : ReadingList)
    (hb : st.book = some b)
    (hfind : st.readingLists.find? (fun l => l.id == listId) = some list) :
    (list.bookIds.contains b.id = true →
      handleSelectList st listId updateApi =
        ⟨⟨st.book, st.readingLists, false, false⟩,
          some "Book is already in this reading list!", none, none⟩) ∧
    (list.bookIds.contains b.id = false →
      (handleSelectList st listId updateApi).request =
        some ⟨list.name, list.description, list.bookIds ++ [b.id]⟩) := by
  refine ⟨fun hmem => ?_, fun hmem => ?_⟩
  · have hm : b.id ∈ list.bookIds := by simpa using hmem
    simp [handleSelectList, hb, hfind, hm]
  · have hm : b.id ∉ list.bookIds := by simpa using hmem
    simp only [handleSelectList, hb, hfind]
    rw [if_neg (by simpa using hm)]
    split <;> rfl

theorem c4_add_idempotent_witness :
    handleSelectList exampleBookState "l1" okUpdate =
      ⟨⟨some bookA, [exampleList], false, false⟩,
        some "Book is already in this reading list!", none, none⟩ ∧
    (handleSelectList exampleBookStateC "l1" okUpdate).request =
      some ⟨"My List", none, ["a", "b", "c"]⟩ := by
  have h1 := c4_add_idempotent exampleBookState "l1" okUpdate bookA exampleList rfl rfl
  have h2 := c4_add_idempotent exampleBookStateC "l1" okUpdate bookC exampleList rfl rfl
  exact ⟨h1.1 rfl, h2.2 rfl⟩

/-- C5: in both the add-to-list and the remove-from-list handlers the server
call is awaited before any local state mutates: when the call fails, the
loaded book and cached lists of the BookDetail page, respectively the whole
cached state of the ReadingListDetail page, are exactly what they were, the
error is reported and no success notice shows. -/
theorem c5_no_speculative_update :
    (∀ (st : BookDetailState) (listId : String)
        (updateApi : UpdatePayload → Except String Unit) (b : Book)
        (list : ReadingList) (e : String),
      st.book = some b →
      st.readingLists.find? (fun l => l.id == listId) = some list →
      list.bookIds.contains b.id = false →
      updateApi ⟨list.name, list.description, list.bookIds ++ [b.id]⟩ = .error e →
      (handleSelectList st listId updateApi).state.book = st.book ∧
      (handleSelectList st listId updateApi).state.readingLists = st.readingLists ∧
      (handleSelectList st listId updateApi).errorMsg = some e ∧
      (handleSelectList st listId updateApi).notice = none) ∧
    (∀ (st : ListDetailState) (bookId : String)
        (updateApi : UpdatePayload → Except String Unit)
        (list : ReadingList) (e : String),
      st.readingList = some list →
      updateApi ⟨list.name, list.description,
        list.bookIds.filter (fun i => i != bookId)⟩ = .error e →
      (handleRemoveBook st bookId updateApi).state = st ∧
      (handleRemoveBook st bookId updateApi).errorMsg = some e ∧
      (handleRemoveBook st bookId updateApi).notice = none) := by
  constructor
  · intro st listId updateApi b list e hb hfind hmem hupd
    have hm : b.id ∉ list.bookIds := by simpa using hmem
    simp only [handleSelectList, hb, hfind]
    rw [if_neg (by simpa using hm)]
    simp [hupd, hb]
  · intro st bookId updateApi list e hl hupd
    simp [handleRemoveBook, hl, hupd]

theorem c5_no_speculative_update_witness :
    (handleSelectList exampleBookStateC "l1" failUpdate).state.book =
      exampleBookStateC.book ∧
    (handleSelectList exampleBookStateC "l1" failUpdate).state.readingLists =
      exampleBookStateC.readingLists ∧
    (handleSelectList exampleBookStateC "l1" failUpdate).errorMsg =
      some "Request failed with status 500" ∧
    (handleRemoveBook exampleDetailState "a" failUpdate).state =
      exampleDetailState ∧
    (handleRemoveBook exampleDetailState "a" failUpdate).errorMsg =
      some "Request failed with status 500" := by
  have h1 := c5_no_speculative_update.1 exampleBookStateC "l1" failUpdate bookC
    exampleList "Request failed with status 500" rfl rfl (by decide) rfl
  have h2 := c5_no_speculative_update.2 exampleDetailState "a" failUpdate
    exampleList "Request failed with status 500" rfl rfl
  exact ⟨h1.1, h1.2.1, h1.2.2.1, h2.1, h2.2.1⟩

/-- C6: removing a book id not present in the list is a no-op on bookIds:
the filtered sequence equals the original one, its length is unchanged and a
successful update leaves the cached record equal to the old one; and on the
concrete list holding a then b, removing a leaves bookIds holding only b and
the rendered book set holding only the record of book b. -/
theorem c6_remove_filter_noop :
    (∀ (st : ListDetailState) (bookId : String)
        (updateApi : UpdatePayload → Except String Unit) (list : ReadingList),
      st.readingList = some list →
      list.bookIds.contains bookId = false →
      list.bookIds.filter (fun i => i != bookId) = list.bookIds ∧
      (list.bookIds.filter (fun i => i != bookId)).length = list.bookIds.length ∧
      (updateApi ⟨list.name, list.description,
          list.bookIds.filter (fun i => i != bookId)⟩ = .ok () →
        (handleRemoveBook st bookId updateApi).state.readingList = st.readingList)) ∧
    ((handleRemoveBook exampleDetailState "a" okUpdate).state.readingList =
        some ⟨"l1", "My List", none, ["b"], "t0", "t1"⟩ ∧
      (handleRemoveBook exampleDetailState "a" okUpdate).state.books = [bookB]) := by
  constructor
  · intro st bookId updateApi list hl hmem
    have hm : bookId ∉ list.bookIds := by simpa using hmem
    have hfilter : list.bookIds.filter (fun i => i != bookId) = list.bookIds := by
      refine List.filter_eq_self.mpr (fun a ha => ?_)
      have : a ≠ bookId := fun h => hm (h ▸ ha)
      simpa using this
    refine ⟨hfilter, by rw [hfilter], fun hupd => ?_⟩
    rw [hfilter] at hupd
    simp only [handleRemoveBook, hl, hfilter, hupd]
  · exact ⟨rfl, rfl⟩

theorem c6_remove_filter_noop_witness :
    exampleList.bookIds.filter (fun i => i != "zz") = exampleList.bookIds ∧
    (exampleList.bookIds.filter (fun i => i != "zz")).length =
      exampleList.bookIds.length ∧
    (handleRemoveBook exampleDetailState "zz" okUpdate).state.readingList =
      exampleDetailState.readingList := by
  have h := c6_remove_filter_noop.1 exampleDetailState "zz" okUpdate exampleList
    rfl (by decide)
  exact ⟨h.1, h.2.1, h.2.2 rfl⟩

/-- C9: each of login, logout, signup and confirmSignup rethrows any
provider error to the caller, and on every exit path, normal return and
thrown error alike, leaves the loading flag cleared, so the flag is false
after every invocation completes. -/
theorem c9_auth_loading_cleanup :
    (∀ (st : AuthState) (email password nowIso : String)
        (signInApi : String → String → Except String Bool)
        (getCurrentUserApi : Unit → Except String AmplifyUser)
        (fetchUserAttributesApi : Unit → Except String UserAttributes),
      (login st email password nowIso signInApi getCurrentUserApi
        fetchUserAttributesApi).state.isLoading = false) ∧
    (∀ (st : AuthState) (email password nowIso e : String)
        (getCurrentUserApi : Unit → Except String AmplifyUser)
        (fetchUserAttributesApi : Unit → Except String UserAttributes),
      (login st email password nowIso (fun _ _ => .error e) getCurrentUserApi
        fetchUserAttributesApi).thrown = some e) ∧
    (∀ (st : AuthState) (email password nowIso e : String)
        (fetchUserAttributesApi : Unit → Except String UserAttributes),
      (login st email password nowIso (fun _ _ => .ok true) (fun _ => .error e)
        fetchUserAttributesApi).thrown = some e) ∧
    (∀ (st : AuthState) (email password nowIso e : String) (u : AmplifyUser),
      (login st email password nowIso (fun _ _ => .ok true) (fun _ => .ok u)
        (fun _ => .error e)).thrown = some e) ∧
    (∀ (st : AuthState) (signOutApi : Unit → Except String Unit),
      (logout st signOutApi).state.isLoading = false) ∧
    (∀ (st : AuthState) (e : String),
      (logout st (fun _ => .error e)).thrown = some e) ∧
    (∀ (st : AuthState) (email password name : String)
        (signUpApi : String → String → String → Except String Unit),
      (signup st email password name signUpApi).state.isLoading = false) ∧
    (∀ (st : AuthState) (email password name e : String),
      (signup st email password name (fun _ _ _ => .error e)).thrown = some e) ∧
    (∀ (st : AuthState) (email code : String)
        (confirmSignUpApi : String → String → Except String Unit),
      (confirmSignup st email code confirmSignUpApi).state.isLoading = false) ∧
    (∀ (st : AuthState) (email code e : String),
      (confirmSignup st email code (fun _ _ => .error e)).thrown = some e) := by
  refine ⟨?_, fun _ _ _ _ _ _ _ => rfl, fun _ _ _ _ _ _ => rfl,
    fun _ _ _ _ _ _ => rfl, ?_, fun _ _ => rfl, ?_, fun _ _ _ _ _ => rfl,
    ?_, fun _ _ _ _ => rfl⟩
  · intro st email password nowIso signInApi getCurrentUserApi fetchUserAttributesApi
    unfold login
    rcases signInApi email password with e | b
    · rfl
    · cases b
      · rfl
      · rcases getCurrentUserApi () with e | u
        · rfl
        · rcases fetchUserAttributesApi () with e | a <;> rfl
  · intro st signOutApi
    unfold logout
    rcases signOutApi () with e | u <;> rfl
  · intro st email password name signUpApi
    unfold signup
    rcases signUpApi email password name with e | u <;> rfl
  · intro st email code confirmSignUpApi
    unfold confirmSignup
    rcases confirmSignUpApi email code with e | u <;> rfl

theorem Json.coerce_str (s : String) : (Json.str s).coerce = s := by
  simp [Json.coerce]

/-- C8 counterexample: the catalog listing does issue a network request in
this snapshot: on any response, getBooks performs exactly one GET request to
the books path, refuting that it serves mock data without a live call. -/
theorem c8_counterexample :
    (getBooks (okResponse (Json.arr [])) parseStub).effects =
      [ApiEffect.httpFetch "GET" "/books"] ∧
    ApiEffect.httpFetch "GET" "/books" ∈
      (getBooks (okResponse (Json.arr [])) parseStub).effects := by
  exact ⟨rfl, by decide⟩

/-- C8 (amended): getBook serves mock data after a fixed 300 ms delay and
without issuing any network request, resolving the mock book whose id
matches, or null when no mock book matches; the catalog listing getBooks,
however, performs a live GET request to the books path. -/
theorem c8_mock_data_snapshot :
    (∀ (mockBooks : List Book) (id : String),
      (getBook mockBooks id).effects = [ApiEffect.delay 300] ∧
      (∀ m p, ApiEffect.httpFetch m p ∉ (getBook mockBooks id).effects) ∧
      (getBook mockBooks id).result = .ok (mockBooks.find? (fun b => b.id == id))) ∧
    (∀ (mockBooks : List Book) (id : String) (b : Book),
      mockBooks.find? (fun b => b.id == id) = some b →
      b ∈ mockBooks ∧ b.id = id) ∧
    (∀ (mockBooks : List Book) (id : String),
      mockBooks.find? (fun b => b.id == id) = none →
      ∀ b ∈ mockBooks, b.id ≠ id) ∧
    (∀ (resp : HttpResponse) (parse : String → Except String Json),
      (getBooks resp parse).effects = [ApiEffect.httpFetch "GET" "/books"]) := by
  refine ⟨fun mockBooks id => ⟨rfl, ?_, rfl⟩, fun mockBooks id b h => ?_,
    fun mockBooks id h b hb => ?_, fun resp parse => rfl⟩
  · intro m p hmem
    simp [getBook] at hmem
  · exact ⟨List.mem_of_find?_eq_some h, by simpa using List.find?_some h⟩
  · have := List.find?_eq_none.mp h b hb
    simpa using this

theorem c8_mock_data_snapshot_witness :
    (getBook [bookA] "a").effects = [ApiEffect.delay 300] ∧
    (getBook [bookA] "a").result = .ok ([bookA].find? (fun b => b.id == "a")) ∧
    bookA ∈ [bookA] ∧ bookA.id = "a" := by
  have h1 := c8_mock_data_snapshot.1 [bookA] "a"
  have h2 := c8_mock_data_snapshot.2.1 [bookA] "a" bookA rfl
  exact ⟨h1.1, h1.2.2, h2.1, h2.2⟩

/-- C7 (amended): on a 429 response of the recommendation endpoint, the read
of the error field of the decoded body yields an error equal to that field
when it supplies a non-empty message, and equal to the fixed rate-limit
default when the read succeeds with the field absent; a body decoding to
null instead makes that very read throw a TypeError, so neither the server
message nor the default is raised there. -/
theorem c7_rate_limit_message
    (resp : HttpResponse) (parse : String → Except String Json)
    (query : String) (errorData : Json)
    (hs : resp.status = 429)
    (hb : resp.jsonBody = .ok errorData) :
    (∀ m : String, errorData.getProp "error" = .ok (some (Json.str m)) → m ≠ "" →
      (getRecommendations query resp parse).result = .error m) ∧
    (errorData.getProp "error" = .ok none →
      (getRecommendations query resp parse).result = .error rateLimitDefaultMessage) ∧
    (errorData = Json.null →
      (getRecommendations query resp parse).result
        = .error (typeErrorNull "error")) := by
  have hok : resp.ok = false := by simp [HttpResponse.ok, hs]
  refine ⟨?_, ?_, ?_⟩
  · intro m hf hm
    simp [getRecommendations, hok, hs, hb, hf, Json.truthy, hm, Json.coerce_str]
  · intro hf
    simp [getRecommendations, hok, hs, hb, hf, Json.truthy]
  · intro hn
    subst hn
    simp [getRecommendations, hok, hs, hb, Json.getProp]

/-- C7 counterexample: a 429 response whose decoded error body is null
raises neither a server-provided message nor the fixed rate-limit default:
the read of the error field throws a TypeError. -/
theorem c7_counterexample :
    (getRecommendations "q" ⟨429, "Too Many Requests", .ok Json.null⟩
        parseStub).result = .error (typeErrorNull "error") ∧
    typeErrorNull "error" ≠ rateLimitDefaultMessage := by
  exact ⟨rfl, by decide⟩

theorem c7_rate_limit_message_witness :
    (getRecommendations "q" ⟨429, "Too Many Requests",
        .ok (Json.obj [("error", Json.str "Daily limit reached")])⟩ parseStub).result
      = .error "Daily limit reached" ∧
    (getRecommendations "q" ⟨429, "Too Many Requests",
        .ok (Json.obj [])⟩ parseStub).result
      = .error rateLimitDefaultMessage := by
  have h1 := c7_rate_limit_message
    ⟨429, "Too Many Requests", .ok (Json.obj [("error", Json.str "Daily limit reached")])⟩
    parseStub "q" (Json.obj [("error", Json.str "Daily limit reached")]) rfl rfl
  have h2 := c7_rate_limit_message
    ⟨429, "Too Many Requests", .ok (Json.obj [])⟩
    parseStub "q" (Json.obj []) rfl rfl
  exact ⟨h1.1 "Daily limit reached" rfl (by decide), h2.2.1 rfl⟩

theorem lookup_filter_ne (l : List (String × Json)) (k k' : String) (h : k ≠ k') :
    (l.filter (fun f => f.1 != k')).lookup k = l.lookup k := by
  induction l with
  | nil => simp
  | cons hd tl ih =>
    rcases hd with ⟨a, v⟩
    by_cases ha : a = k'
    · subst ha
      have h1 : (a != a) = false := by simp
      have h2 : (k == a) = false := by simpa using h
      simp [List.filter_cons, h1, List.lookup, h2, ih]
    · have h1 : (a != k') = true := by simpa using ha
      by_cases hak : k = a
      · subst hak
        simp [List.filter_cons, h1, List.lookup]
      · have h2 : (k == a) = false := by simpa using hak
        simp [List.filter_cons, h1, List.lookup, h2, ih]

theorem lookup_filter_self (l : List (String × Json)) (k : String) :
    (l.filter (fun f => f.1 != k)).lookup k = none := by
  induction l with
  | nil => simp
  | cons hd tl ih =>
    rcases hd with ⟨a, v⟩
    by_cases ha : a = k
    · subst ha
      have h1 : (a != a) = false := by simp
      simp [List.filter_cons, h1, ih]
    · have h1 : (a != k) = true := by simpa using ha
      have h2 : (k == a) = false := by simpa using (Ne.symm ha)
      simp [List.filter_cons, h1, List.lookup, h2, ih]

theorem lookup_map_replace (l : List (String × Json)) (k : String) (v : Json)
    (h : l.any (fun f => f.1 == k) = true) :
    (l.map (fun f => if f.1 == k then (k, v) else f)).lookup k = some v := by
  induction l with
  | nil => simp at h
  | cons hd tl ih =>
    rcases hd with ⟨a, w⟩
    by_cases hk : a = k
    · have hk1 : (a == k) = true := by simpa using hk
      rw [List.map_cons, if_pos hk1]
      simp [List.lookup]
    · have hk2 : (a == k) = false := by simpa using hk
      have h2 : tl.any (fun f => f.1 == k) = true := by
        rw [List.any_cons] at h
        simpa [hk2] using h
      have hkk : (k == a) = false := by simpa using (Ne.symm hk)
      rw [List.map_cons, if_neg (by simp [hk2])]
      simp only [List.lookup, hkk]
      exact ih h2

theorem lookup_append_new (l : List (String × Json)) (k : String) (v : Json)
    (h : l.any (fun f => f.1 == k) = false) :
    (l ++ [(k, v)]).lookup k = some v := by
  induction l with
  | nil => simp [List.lookup]
  | cons hd tl ih =>
    rw [List.any_cons] at h
    have hk : (hd.1 == k) = false := (Bool.or_eq_false_iff.mp h).1
    have h2 : tl.any (fun f => f.1 == k) = false := (Bool.or_eq_false_iff.mp h).2
    have hkk : (k == hd.1) = false := by
      have hne : hd.1 ≠ k := by simpa using hk
      simpa using (Ne.symm hne)
    simp [List.cons_append, List.lookup, hkk, ih h2]

theorem getField_setField_self (l : List (String × Json)) (k : String) (v : Json) :
    ((Json.obj l).setField k v).getField k = some v := by
  by_cases h : l.any (fun f => f.1 == k) = true
  · have hrw : (Json.obj l).setField k v =
        Json.obj (l.map (fun f => if f.1 == k then (k, v) else f)) := by
      simp [Json.setField, h]
    rw [hrw]
    exact lookup_map_replace l k v h
  · have h2 : l.any (fun f => f.1 == k) = false := Bool.eq_false_iff.mpr h
    have hrw : (Json.obj l).setField k v = Json.obj (l ++ [(k, v)]) := by
      simp [Json.setField, h2]
    rw [hrw]
    exact lookup_append_new l k v h2

theorem getField_delField_ne (j : Json) (k k' : String) (h : k ≠ k') :
    (j.delField k').getField k = j.getField k := by
  cases j <;> first | rfl | exact lookup_filter_ne _ k k' h

theorem getField_delField_self (j : Json) (k : String) :
    (j.delField k).getField k = none := by
  cases j <;> first | rfl | exact lookup_filter_self _ k

theorem truthyField_exists (j : Json) (k : String)
    (h : j.truthyField k = true) :
    ∃ v, j.getField k = some v ∧ v.truthy = true := by
  unfold Json.truthyField at h
  cases hv : j.getField k with
  | none => rw [hv] at h; exact absurd h (by simp)
  | some v => rw [hv] at h; exact ⟨v, rfl, h⟩

theorem repairBooksField_fields (j : Json)
    (hb : j.truthyField "books" = true) (hnb : j.truthyField "bookIds" = false) :
    (repairBooksField j).getField "bookIds" = j.getField "books" ∧
    (repairBooksField j).getField "books" = none := by
  obtain ⟨v, hv, hvt⟩ := truthyField_exists j "books" hb
  have hobj : ∃ l, j = Json.obj l := by
    cases j
    case obj l => exact ⟨l, rfl⟩
    all_goals simp [Json.getField] at hv
  obtain ⟨l, rfl⟩ := hobj
  have hguard : ((Json.obj l).truthyField "books" &&
      !((Json.obj l).truthyField "bookIds")) = true := by
    simp [hb, hnb]
  unfold repairBooksField
  rw [if_pos hguard]
  constructor
  · rw [getField_delField_ne _ "bookIds" "books" (by decide), hv]
    simp only [Option.getD_some]
    exact getField_setField_self l "bookIds" v
  · exact getField_delField_self _ "books"

theorem repairBooksField_id_of_bookIds (j : Json)
    (h : j.truthyField "bookIds" = true) : repairBooksField j = j := by
  unfold repairBooksField
  rw [if_neg (by simp [h])]

theorem okResponse_ok (j : Json) : (okResponse j).ok = true := rfl

theorem envelopeBody_obj_body (s : String) (h : s ≠ "") :
    (Json.obj [("body", Json.str s)]).envelopeBody = some s := by
  have h2 : (s == "") = false := by simpa using h
  simp [Json.envelopeBody, envelopeString, Json.getField, List.lookup, h2]

theorem getProp_nonnull (j : Json) (k : String) (h : j ≠ Json.null) :
    j.getProp k = .ok (j.getField k) := by
  cases j
  case null => exact absurd rfl h
  all_goals rfl

theorem getProp_body_obj (fields : List (String × Json)) :
    (Json.obj fields).getProp "body" = .ok ((Json.obj fields).getField "body") := rfl

theorem envelopeString_str (s : String) (h : s ≠ "") :
    envelopeString (some (Json.str s)) = some s := by
  have h2 : (s == "") = false := by simpa using h
  simp [envelopeString, h2]

theorem envelopeString_none : envelopeString none = none := rfl

theorem envelopeString_getField (j : Json) :
    envelopeString (j.getField "body") = j.envelopeBody := rfl

theorem ne_null_of_truthyField (j : Json) (k : String)
    (h : j.truthyField k = true) : j ≠ Json.null := by
  intro hn
  subst hn
  simp [Json.truthyField, Json.getField] at h

theorem ne_null_of_getField (j : Json) (k : String) (v : Json)
    (h : j.getField k = some v) : j ≠ Json.null := by
  intro hn
  subst hn
  simp [Json.getField] at h

theorem repairBooksFieldRun_nonnull (j : Json) (h : j ≠ Json.null) :
    repairBooksFieldRun j = .ok (repairBooksField j) := by
  cases j
  case null => exact absurd rfl h
  all_goals rfl

/-- C2 (amended): after create and after update alike, a successful response
whose record carries a truthy books value and a falsy or absent bookIds value
comes back with books renamed to bookIds and books deleted, both for a
wrapped and for a direct payload; a record with a truthy bookIds or books
value always comes back with a bookIds field present; and the whole success
normalization of createReadingList and updateReadingList is one and the same
function. A falsy books value, such as null, is returned unrepaired, which is
what the counterexample exhibits. -/
theorem c2_books_field_repair :
    (∀ (parse : String → Except String Json) (s : String) (p lreq : Json) (id : String),
      s ≠ "" → parse s = .ok p →
      p.truthyField "books" = true → p.truthyField "bookIds" = false →
      (createReadingList lreq (okResponse (Json.obj [("body", Json.str s)])) parse).result
          = .ok (repairBooksField p) ∧
      (updateReadingList id lreq (okResponse (Json.obj [("body", Json.str s)])) parse).result
          = .ok (repairBooksField p)) ∧
    (∀ (parse : String → Except String Json) (data lreq : Json) (id : String),
      data.envelopeBody = none →
      data.truthyField "books" = true → data.truthyField "bookIds" = false →
      (createReadingList lreq (okResponse data) parse).result = .ok (repairBooksField data) ∧
      (updateReadingList id lreq (okResponse data) parse).result = .ok (repairBooksField data)) ∧
    (∀ j : Json, j.truthyField "books" = true → j.truthyField "bookIds" = false →
      (repairBooksField j).getField "bookIds" = j.getField "books" ∧
      (repairBooksField j).getField "books" = none) ∧
    (∀ j : Json, (j.truthyField "bookIds" || j.truthyField "books") = true →
      ∃ v, (repairBooksField j).getField "bookIds" = some v) ∧
    (∀ (parse : String → Except String Json) (lreq : Json) (id : String)
        (resp : HttpResponse),
      resp.ok = true →
      (createReadingList lreq resp parse).result
        = (updateReadingList id lreq resp parse).result) := by
  refine ⟨?_, ?_, fun j hb hnb => repairBooksField_fields j hb hnb, ?_, ?_⟩
  · intro parse s p lreq id hs hp hb hnb
    have hpn : p ≠ Json.null := ne_null_of_truthyField p "books" hb
    constructor <;>
      simp [createReadingList, updateReadingList, okResponse, HttpResponse.ok,
        getProp_body_obj, Json.getField, List.lookup, envelopeString_str s hs, hp,
        repairBooksFieldRun_nonnull p hpn]
  · intro parse data lreq id henv hb hnb
    have hdn : data ≠ Json.null := ne_null_of_truthyField data "books" hb
    constructor <;>
      simp [createReadingList, updateReadingList, okResponse, HttpResponse.ok,
        getProp_nonnull data "body" hdn, envelopeString_getField, henv, hb, hnb]
  · intro j h
    by_cases hb : j.truthyField "bookIds" = true
    · rw [repairBooksField_id_of_bookIds j hb]
      obtain ⟨v, hv, _⟩ := truthyField_exists j "bookIds" hb
      exact ⟨v, hv⟩
    · have hnb : j.truthyField "bookIds" = false := Bool.eq_false_iff.mpr hb
      have hdisj : j.truthyField "bookIds" = true ∨ j.truthyField "books" = true := by
        simpa using h
      have hbk : j.truthyField "books" = true := by
        rcases hdisj with h1 | h1
        · exact absurd h1 hb
        · exact h1
      obtain ⟨v, hv, _⟩ := truthyField_exists j "books" hbk
      have hfld := (repairBooksField_fields j hbk hnb).1
      exact ⟨v, by rw [hfld, hv]⟩
  · intro parse lreq id resp hok
    simp only [createReadingList, updateReadingList, hok, Bool.not_true,
      Bool.false_eq_true, if_false]

/-- C2 counterexample: a successful createReadingList response whose record
carries a books field holding null and no bookIds field is returned exactly
as it came: the books field is still there and no bookIds field exists, so
the rename is not applied to every record carrying a books field and no
bookIds field. -/
theorem c2_counterexample :
    (createReadingList (Json.obj [])
        (okResponse (Json.obj [("body", Json.str "\x7b\"books\":null\x7d")]))
        parseStub).result = .ok (Json.obj [("books", Json.null)]) ∧
    (Json.obj [("books", Json.null)]).getField "books" = some Json.null ∧
    (Json.obj [("books", Json.null)]).getField "bookIds" = none :=
  ⟨rfl, rfl, rfl⟩

theorem c2_books_field_repair_witness :
    (createReadingList (Json.obj [])
        (okResponse (Json.obj [("body", Json.str "\x7b\"books\":[\"b1\"]\x7d")]))
        parseStub).result
      = .ok (repairBooksField (Json.obj [("books", Json.arr [Json.str "b1"])])) ∧
    (repairBooksField (Json.obj [("books", Json.arr [Json.str "b1"])])).getField "bookIds"
      = (Json.obj [("books", Json.arr [Json.str "b1"])]).getField "books" ∧
    (repairBooksField (Json.obj [("books", Json.arr [Json.str "b1"])])).getField "books"
      = none := by
  have h1 := c2_books_field_repair.1 parseStub "\x7b\"books\":[\"b1\"]\x7d"
    (Json.obj [("books", Json.arr [Json.str "b1"])]) (Json.obj []) "l1"
    (by decide) rfl rfl rfl
  have h2 := c2_books_field_repair.2.2.1 (Json.obj [("books", Json.arr [Json.str "b1"])])
    rfl rfl
  exact ⟨h1.1, h2.1, h2.2⟩

/-- C1 (amended): for a payload that is neither an envelope nor null,
unwrapping is transparent for getBooks and getReviews on every payload
shape, for getReadingLists on array payloads, and for createReadingList and
updateReadingList on payloads carrying a truthy bookIds or books field. It
is not transparent elsewhere: a wrapped non-array payload makes
getReadingLists raise a differently worded error than the direct payload
does; a wrapped payload without a truthy bookIds or books field is returned
by createReadingList while the identical direct payload raises; and at the
null payload a direct body makes every normalizer throw a TypeError reading
body, while the wrapped form yields the empty array for getBooks and a
TypeError reading books for createReadingList. -/
theorem c1_unwrap_transparency
    (parse : String → Except String Json) (s : String) (p : Json)
    (lreq : Json) (bookId listId : String)
    (hs : s ≠ "") (hp : parse s = .ok p) (hne : p.envelopeBody = none) :
    (p ≠ Json.null →
      (getBooks (okResponse (Json.obj [("body", Json.str s)])) parse).result
        = (getBooks (okResponse p) parse).result) ∧
    (p ≠ Json.null →
      (getReviews bookId (okResponse (Json.obj [("body", Json.str s)])) parse).result
        = (getReviews bookId (okResponse p) parse).result) ∧
    (p.isArr = true →
      (getReadingLists (okResponse (Json.obj [("body", Json.str s)])) parse).result
        = (getReadingLists (okResponse p) parse).result) ∧
    (p ≠ Json.null → p.isArr = false →
      (getReadingLists (okResponse (Json.obj [("body", Json.str s)])) parse).result
          = .error "API response body is not an array" ∧
      (getReadingLists (okResponse p) parse).result
          = .error "Unexpected API response format") ∧
    ((p.truthyField "bookIds" || p.truthyField "books") = true →
      (createReadingList lreq (okResponse (Json.obj [("body", Json.str s)])) parse).result
          = (createReadingList lreq (okResponse p) parse).result ∧
      (updateReadingList listId lreq (okResponse (Json.obj [("body", Json.str s)])) parse).result
          = (updateReadingList listId lreq (okResponse p) parse).result) ∧
    (p ≠ Json.null → (p.truthyField "bookIds" || p.truthyField "books") = false →
      (createReadingList lreq (okResponse (Json.obj [("body", Json.str s)])) parse).result
          = .ok (repairBooksField p) ∧
      (createReadingList lreq (okResponse p) parse).result
          = .error "Unexpected API response format") ∧
    (p = Json.null →
      (getBooks (okResponse (Json.obj [("body", Json.str s)])) parse).result
          = .ok [] ∧
      (getBooks (okResponse Json.null) parse).result
          = .error (typeErrorNull "body") ∧
      (createReadingList lreq (okResponse (Json.obj [("body", Json.str s)])) parse).result
          = .error (typeErrorNull "books") ∧
      (createReadingList lreq (okResponse Json.null) parse).result
          = .error (typeErrorNull "body")) := by
  have hwprop : (Json.obj [("body", Json.str s)]).getProp "body"
      = .ok (some (Json.str s)) := rfl
  refine ⟨?_, ?_, ?_, ?_, ?_, ?_, ?_⟩
  · intro hnn
    cases p
    case null => exact absurd rfl hnn
    case obj fields =>
      simp only [Json.envelopeBody, Json.getField] at hne
      simp [getBooks, okResponse, HttpResponse.ok, hwprop,
        envelopeString_str s hs, hp, Json.getProp, hne]
    all_goals
      simp [getBooks, okResponse, HttpResponse.ok, hwprop,
        envelopeString_str s hs, hp, hs, Json.getProp, Json.getField, envelopeString]
  · intro hnn
    cases p
    case null => exact absurd rfl hnn
    case obj fields =>
      simp only [Json.envelopeBody, Json.getField] at hne
      simp [getReviews, okResponse, HttpResponse.ok, hwprop,
        envelopeString_str s hs, hp, Json.getProp, hne]
    all_goals
      simp [getReviews, okResponse, HttpResponse.ok, hwprop,
        envelopeString_str s hs, hp, hs, Json.getProp, Json.getField, envelopeString]
  · intro ha
    have hparr : ∃ xs, p = Json.arr xs := by
      cases p
      case arr xs => exact ⟨xs, rfl⟩
      all_goals simp [Json.isArr] at ha
    obtain ⟨xs, rfl⟩ := hparr
    simp [getReadingLists, okResponse, HttpResponse.ok, hwprop,
      envelopeString_str s hs, hp, hs, Json.getProp, Json.getField, envelopeString]
  · intro hnn ha
    cases p
    case null => exact absurd rfl hnn
    case arr xs => simp [Json.isArr] at ha
    case obj fields =>
      simp only [Json.envelopeBody, Json.getField] at hne
      exact ⟨by simp [getReadingLists, okResponse, HttpResponse.ok, hwprop,
          envelopeString_str s hs, hp],
        by simp [getReadingLists, okResponse, HttpResponse.ok, Json.getProp, hne]⟩
    all_goals
      exact ⟨by simp [getReadingLists, okResponse, HttpResponse.ok, hwprop,
          envelopeString_str s hs, hp],
        by simp [getReadingLists, okResponse, HttpResponse.ok, Json.getProp,
          Json.getField, envelopeString, envelopeString_none]⟩
  · intro h
    have hpn : p ≠ Json.null := by
      rcases (by simpa using h :
          p.truthyField "bookIds" = true ∨ p.truthyField "books" = true) with h1 | h1
      · exact ne_null_of_truthyField p "bookIds" h1
      · exact ne_null_of_truthyField p "books" h1
    constructor <;>
      simp [createReadingList, updateReadingList, okResponse, HttpResponse.ok,
        hwprop, envelopeString_str s hs, hp, repairBooksFieldRun_nonnull p hpn,
        getProp_nonnull p "body" hpn, envelopeString_getField, hne, h]
  · intro hnn h
    constructor
    · simp [createReadingList, okResponse, HttpResponse.ok, hwprop,
        envelopeString_str s hs, hp, repairBooksFieldRun_nonnull p hnn]
    · simp [createReadingList, okResponse, HttpResponse.ok,
        getProp_nonnull p "body" hnn, envelopeString_getField, hne, h]
  · intro hnull
    subst hnull
    refine ⟨?_, ?_, ?_, ?_⟩ <;>
      simp [getBooks, createReadingList, okResponse, HttpResponse.ok, hwprop,
        envelopeString_str s hs, hp, Json.getProp, repairBooksFieldRun]

/-- C1 counterexample: the empty-object payload, wrapped, is returned by
createReadingList, while the identical payload sent directly makes the same
call raise, so a wrapped payload and the identical direct payload do not
always both return the same record or both raise the same error. -/
theorem c1_counterexample :
    (createReadingList (Json.obj [])
        (okResponse (Json.obj [("body", Json.str "\x7b\x7d")])) parseStub).result
      = .ok (Json.obj []) ∧
    (createReadingList (Json.obj []) (okResponse (Json.obj [])) parseStub).result
      = .error "Unexpected API response format" :=
  ⟨rfl, rfl⟩

theorem c1_unwrap_transparency_witness :
    (getBooks (okResponse (Json.obj [("body", Json.str "[]")])) parseStub).result
      = (getBooks (okResponse (Json.arr [])) parseStub).result ∧
    (getReadingLists (okResponse (Json.obj [("body", Json.str "[]")])) parseStub).result
      = (getReadingLists (okResponse (Json.arr [])) parseStub).result := by
  have h := c1_unwrap_transparency parseStub "[]" (Json.arr []) (Json.obj []) "b1" "l1"
    (by decide) rfl rfl
  exact ⟨h.1 (fun hx => nomatch hx), h.2.2.1 rfl⟩

/-- C10 (amended): on a 2xx response whose decoded JSON is neither null,
nor an array, nor an envelope with a truthy string body, getBooks and
getReviews return the empty array rather than raising, and getReadingLists
raises the unexpected-format error; getRecommendations raises it only when
no recommendations field is present, and returns an array recommendations
field instead when there is one. For a wrapped payload that parses to a
non-array, getBooks and getReviews again return the empty array, while
getReadingLists raises its differently worded body-is-not-an-array error. A
null decoded body makes all four normalizers throw a TypeError reading
body, and a wrapped body parsing to null makes getRecommendations throw a
TypeError reading recommendations. -/
theorem c10_unexpected_shape_policy :
    (∀ (parse : String → Except String Json) (data : Json) (bookId : String),
      data ≠ Json.null → data.envelopeBody = none → data.isArr = false →
      (getBooks (okResponse data) parse).result = .ok [] ∧
      (getReviews bookId (okResponse data) parse).result = .ok [] ∧
      (getReadingLists (okResponse data) parse).result
        = .error "Unexpected API response format") ∧
    (∀ (parse : String → Except String Json) (data : Json) (query : String),
      data ≠ Json.null → data.envelopeBody = none → data.isArr = false →
      data.getField "recommendations" = none →
      (getRecommendations query (okResponse data) parse).result
        = .error "Unexpected API response format") ∧
    (∀ (parse : String → Except String Json) (s : String) (p : Json) (bookId : String),
      s ≠ "" → parse s = .ok p → p.isArr = false →
      (getBooks (okResponse (Json.obj [("body", Json.str s)])) parse).result = .ok [] ∧
      (getReviews bookId (okResponse (Json.obj [("body", Json.str s)])) parse).result
        = .ok [] ∧
      (getReadingLists (okResponse (Json.obj [("body", Json.str s)])) parse).result
        = .error "API response body is not an array") ∧
    (∀ (parse : String → Except String Json) (s : String) (p : Json) (query : String),
      s ≠ "" → parse s = .ok p → p ≠ Json.null → p.isArr = false →
      p.getField "recommendations" = none →
      (getRecommendations query (okResponse (Json.obj [("body", Json.str s)])) parse).result
        = .error "Unexpected API response format") ∧
    (∀ (parse : String → Except String Json) (data : Json) (query : String)
        (xs : List Json),
      data.envelopeBody = none →
      data.getField "recommendations" = some (Json.arr xs) →
      (getRecommendations query (okResponse data) parse).result = .ok xs) ∧
    (∀ (parse : String → Except String Json) (bookId query : String),
      (getBooks (okResponse Json.null) parse).result
        = .error (typeErrorNull "body") ∧
      (getReviews bookId (okResponse Json.null) parse).result
        = .error (typeErrorNull "body") ∧
      (getReadingLists (okResponse Json.null) parse).result
        = .error (typeErrorNull "body") ∧
      (getRecommendations query (okResponse Json.null) parse).result
        = .error (typeErrorNull "body")) ∧
    (∀ (parse : String → Except String Json) (s query : String),
      s ≠ "" → parse s = .ok Json.null →
      (getRecommendations query (okResponse (Json.obj [("body", Json.str s)])) parse).result
        = .error (typeErrorNull "recommendations")) := by
  refine ⟨?_, ?_, ?_, ?_, ?_, ?_, ?_⟩
  · intro parse data bookId hdn henv hiarr
    cases data
    case null => exact absurd rfl hdn
    case arr xs => simp [Json.isArr] at hiarr
    case obj fields =>
      simp only [Json.envelopeBody, Json.getField] at henv
      exact ⟨by simp [getBooks, okResponse, HttpResponse.ok, Json.getProp, henv],
        by simp [getReviews, okResponse, HttpResponse.ok, Json.getProp, henv],
        by simp [getReadingLists, okResponse, HttpResponse.ok, Json.getProp, henv]⟩
    all_goals
      exact ⟨by simp [getBooks, okResponse, HttpResponse.ok, Json.getProp,
          Json.getField, envelopeString],
        by simp [getReviews, okResponse, HttpResponse.ok, Json.getProp,
          Json.getField, envelopeString],
        by simp [getReadingLists, okResponse, HttpResponse.ok, Json.getProp,
          Json.getField, envelopeString]⟩
  · intro parse data query hdn henv hiarr hrec
    cases data
    case null => exact absurd rfl hdn
    case arr xs => simp [Json.isArr] at hiarr
    case obj fields =>
      simp only [Json.envelopeBody, Json.getField] at henv hrec
      simp [getRecommendations, okResponse, HttpResponse.ok, Json.getProp,
        Json.getField, henv, hrec]
    all_goals
      simp [getRecommendations, okResponse, HttpResponse.ok, Json.getProp,
        Json.getField, envelopeString]
  · intro parse s p bookId hs hp hiarr
    have hwprop : (Json.obj [("body", Json.str s)]).getProp "body"
        = .ok (some (Json.str s)) := rfl
    cases p
    case arr xs => simp [Json.isArr] at hiarr
    all_goals
      exact ⟨by simp [getBooks, okResponse, HttpResponse.ok, hwprop,
          envelopeString_str s hs, hp],
        by simp [getReviews, okResponse, HttpResponse.ok, hwprop,
          envelopeString_str s hs, hp],
        by simp [getReadingLists, okResponse, HttpResponse.ok, hwprop,
          envelopeString_str s hs, hp]⟩
  · intro parse s p query hs hp hnn hiarr hrec
    have hwprop : (Json.obj [("body", Json.str s)]).getProp "body"
        = .ok (some (Json.str s)) := rfl
    cases p
    case null => exact absurd rfl hnn
    case arr xs => simp [Json.isArr] at hiarr
    case obj fields =>
      simp only [Json.getField] at hrec
      simp [getRecommendations, okResponse, HttpResponse.ok, hwprop,
        envelopeString_str s hs, hp, Json.getProp, hrec, Json.getField, List.lookup]
    all_goals
      simp [getRecommendations, okResponse, HttpResponse.ok, hwprop,
        envelopeString_str s hs, hp, Json.getProp, Json.getField, List.lookup]
  · intro parse data query xs henv hrec
    have hdn : data ≠ Json.null := ne_null_of_getField data "recommendations"
      (Json.arr xs) hrec
    simp [getRecommendations, okResponse, HttpResponse.ok,
      getProp_nonnull data "body" hdn, envelopeString_getField, henv, hrec]
  · intro parse bookId query
    refine ⟨?_, ?_, ?_, ?_⟩ <;>
      simp [getBooks, getReviews, getReadingLists, getRecommendations,
        okResponse, HttpResponse.ok, Json.getProp]
  · intro parse s query hs hp
    have hwprop : (Json.obj [("body", Json.str s)]).getProp "body"
        = .ok (some (Json.str s)) := rfl
    simp [getRecommendations, okResponse, HttpResponse.ok, hwprop,
      envelopeString_str s hs, hp, Json.getProp]

/-- C10 counterexample: a 2xx recommendation response whose decoded JSON is
neither an array nor an envelope, namely an object with an array
recommendations field, is returned by getRecommendations rather than making
it raise the unexpected-format error. -/
theorem c10_counterexample :
    (getRecommendations "q"
        (okResponse (Json.obj [("recommendations", Json.arr [])]))
        parseStub).result = .ok [] ∧
    (Json.obj [("recommendations", Json.arr [])]).isArr = false ∧
    (Json.obj [("recommendations", Json.arr [])]).envelopeBody = none :=
  ⟨rfl, rfl, rfl⟩

theorem c10_unexpected_shape_policy_witness :
    (getBooks (okResponse (Json.num 5)) parseStub).result = .ok [] ∧
    (getReadingLists (okResponse (Json.num 5)) parseStub).result
      = .error "Unexpected API response format" ∧
    (getRecommendations "q" (okResponse (Json.num 5)) parseStub).result
      = .error "Unexpected API response format" ∧
    (getReadingLists (okResponse (Json.obj [("body", Json.str "\x7b\x7d")]))
        parseStub).result
      = .error "API response body is not an array" := by
  have h1 := c10_unexpected_shape_policy.1 parseStub (Json.num 5) "b1"
    (fun hx => nomatch hx) rfl rfl
  have h2 := c10_unexpected_shape_policy.2.1 parseStub (Json.num 5) "q"
    (fun hx => nomatch hx) rfl rfl rfl
  have h3 := c10_unexpected_shape_policy.2.2.1 parseStub "\x7b\x7d" (Json.obj [])
    "b1" (by decide) rfl rfl
  exact ⟨h1.1, h1.2.2, h2, h3.2.2⟩

theorem containsSubstr_append_right (n h t : String) (hc : containsSubstr n h) :
    containsSubstr n (h ++ t) := by
  unfold containsSubstr at hc ⊢
  obtain ⟨a, b, hab⟩ := hc
  exact ⟨a, b ++ t.data, by rw [String.data_append, ← hab]; simp [List.append_assoc]⟩

theorem contains_status_simple (pre n sp st : String) :
    containsSubstr n (pre ++ n ++ sp ++ st) := by
  have h := containsSubstr_middle pre n (sp ++ st)
  rw [String.append_assoc]
  exact h

theorem exists_suffix_of_extend (base m : String)
    (h : m = base ∨ ∃ x, m = base ++ " - " ++ x) :
    ∃ suffix, m = base ++ suffix := by
  rcases h with rfl | ⟨x, rfl⟩
  · exact ⟨"", by simp⟩
  · exact ⟨" - " ++ x, by simp [String.append_assoc]⟩

theorem readingListsErrorMessage_suffix (resp : HttpResponse)
    (parse : String → Except String Json) :
    ∃ suffix, readingListsErrorMessage resp parse
      = ("Failed to fetch reading lists: " ++ toString resp.status ++ " "
          ++ resp.statusText) ++ suffix := by
  refine exists_suffix_of_extend _ _ ?_
  unfold readingListsErrorMessage
  cases resp.jsonBody with
  | error e => exact Or.inl rfl
  | ok errorData =>
    by_cases h1 : errorData.truthyField "message" = true
    · exact Or.inr ⟨((errorData.getField "message").getD Json.null).coerce, by simp [h1]⟩
    · have h1f : errorData.truthyField "message" = false := Bool.eq_false_iff.mpr h1
      by_cases h2 : errorData.truthyField "body" = true
      · simp only [h1f, Bool.false_eq_true, if_false, h2, if_true]
        split
        · exact Or.inl rfl
        · rename_i pb heq
          by_cases h3 : pb.truthyField "message" = true
          · exact Or.inr ⟨((pb.getField "message").getD Json.null).coerce, by simp [h3]⟩
          · have h3f : pb.truthyField "message" = false := Bool.eq_false_iff.mpr h3
            exact Or.inl (by simp [h3f])
      · have h2f : errorData.truthyField "body" = false := Bool.eq_false_iff.mpr h2
        exact Or.inl (by simp [h1f, h2f])

theorem updateReadingListErrorMessage_suffix (resp : HttpResponse)
    (parse : String → Except String Json) :
    ∃ suffix, updateReadingListErrorMessage resp parse
      = ("Failed to update reading list: " ++ toString resp.status ++ " "
          ++ resp.statusText) ++ suffix := by
  refine exists_suffix_of_extend _ _ ?_
  unfold updateReadingListErrorMessage
  cases resp.jsonBody with
  | error e => exact Or.inl rfl
  | ok errorData =>
    by_cases h1 : errorData.truthyField "message" = true
    · exact Or.inr ⟨((errorData.getField "message").getD Json.null).coerce, by simp [h1]⟩
    · have h1f : errorData.truthyField "message" = false := Bool.eq_false_iff.mpr h1
      by_cases h2 : errorData.truthyField "body" = true
      · simp only [h1f, Bool.false_eq_true, if_false, h2, if_true]
        split
        · exact Or.inl rfl
        · rename_i pb heq
          by_cases h3 : (pb.truthyField "message" || pb.truthyField "error") = true
          · exact Or.inr ⟨(if ((pb.getField "message").getD Json.null).truthy
                then (pb.getField "message").getD Json.null
                else (pb.getField "error").getD Json.null).coerce, by simp [h3]⟩
          · have h3f : (pb.truthyField "message" || pb.truthyField "error") = false :=
              Bool.eq_false_iff.mpr h3
            exact Or.inl (by simp [h3f])
      · have h2f : errorData.truthyField "body" = false := Bool.eq_false_iff.mpr h2
        exact Or.inl (by simp [h1f, h2f])

/-- C3 (amended): every operation that performs an HTTP call, except
getRecommendations, raises on a non-2xx response an error whose message
contains the HTTP status; getReadingLists and updateReadingList additionally
append a server-supplied message from the top-level message field (or the
nested unwrapped body) when one is obtainable; getRecommendations instead
raises a fixed message on non-429 failures, and on 429 the error text of the
body or a fixed rate-limit default, none of which carries the status. -/
theorem c3_error_status (resp : HttpResponse)
    (parse : String → Except String Json)
    (bookJson lreq reviewJson : Json) (id bookId query : String)
    (hok : resp.ok = false) :
    (∃ m, (getBooks resp parse).result = .error m ∧
      containsSubstr (toString resp.status) m) ∧
    (∃ m, (getReviews bookId resp parse).result = .error m ∧
      containsSubstr (toString resp.status) m) ∧
    (∃ m, (createBook bookJson resp parse).result = .error m ∧
      containsSubstr (toString resp.status) m) ∧
    (∃ m, (updateBook id bookJson resp parse).result = .error m ∧
      containsSubstr (toString resp.status) m) ∧
    (id ≠ "" → ∃ m, (deleteBook (some id) resp).result = .error m ∧
      containsSubstr (toString resp.status) m) ∧
    (∃ m, (deleteReadingList id resp).result = .error m ∧
      containsSubstr (toString resp.status) m) ∧
    (∃ m, (createReview bookId reviewJson resp parse).result = .error m ∧
      containsSubstr (toString resp.status) m) ∧
    (∃ m, (createReadingList lreq resp parse).result = .error m ∧
      containsSubstr (toString resp.status) m) ∧
    (∃ m, (getReadingLists resp parse).result = .error m ∧
      containsSubstr (toString resp.status) m) ∧
    (∃ m, (updateReadingList id lreq resp parse).result = .error m ∧
      containsSubstr (toString resp.status) m) ∧
    (∀ d mm, resp.jsonBody = .ok d → d.getField "message" = some (Json.str mm) →
      mm ≠ "" →
      (getReadingLists resp parse).result
        = .error ("Failed to fetch reading lists: " ++ toString resp.status ++ " "
            ++ resp.statusText ++ " - " ++ mm)) ∧
    (resp.status ≠ 429 →
      (getRecommendations query resp parse).result
        = .error "Failed to get recommendations") := by
  refine ⟨⟨_, by simp [getBooks, hok],
      contains_status_simple "Failed to fetch books: " (toString resp.status) " "
        resp.statusText⟩,
    ⟨_, by simp [getReviews, hok],
      contains_status_simple "Failed to fetch reviews: " (toString resp.status) " "
        resp.statusText⟩,
    ⟨_, by simp [createBook, hok],
      contains_status_simple "Failed to create book: " (toString resp.status) " "
        resp.statusText⟩,
    ⟨_, by simp [updateBook, hok],
      contains_status_simple "Failed to update book: " (toString resp.status) " "
        resp.statusText⟩,
    fun hid => ⟨_, by simp [deleteBook, hok, (by simpa using hid : (id != "") = true)],
      contains_status_simple "Failed to delete book: " (toString resp.status) " "
        resp.statusText⟩,
    ⟨_, by simp [deleteReadingList, hok],
      contains_status_simple "Failed to delete reading list: " (toString resp.status) " "
        resp.statusText⟩,
    ⟨_, by simp [createReview, hok],
      contains_status_simple "Failed to create review: " (toString resp.status) " "
        resp.statusText⟩,
    ⟨_, by simp [createReadingList, hok],
      contains_status_simple "Failed to create reading list: " (toString resp.status) " "
        resp.statusText⟩,
    ?_, ?_, ?_, ?_⟩
  · obtain ⟨suffix, hmsg⟩ := readingListsErrorMessage_suffix resp parse
    refine ⟨readingListsErrorMessage resp parse, by simp [getReadingLists, hok], ?_⟩
    rw [hmsg]
    exact containsSubstr_append_right _ _ _ (contains_status_simple _ _ _ _)
  · obtain ⟨suffix, hmsg⟩ := updateReadingListErrorMessage_suffix resp parse
    refine ⟨updateReadingListErrorMessage resp parse,
      by simp [updateReadingList, hok], ?_⟩
    rw [hmsg]
    exact containsSubstr_append_right _ _ _ (contains_status_simple _ _ _ _)
  · intro d mm hjb hf hmm
    have ht : d.truthyField "message" = true := by
      simp [Json.truthyField, hf, Json.truthy]
      simpa using hmm
    have hmsg : readingListsErrorMessage resp parse
        = "Failed to fetch reading lists: " ++ toString resp.status ++ " "
          ++ resp.statusText ++ " - " ++ mm := by
      unfold readingListsErrorMessage
      rw [hjb]
      simp [ht, hf, Json.coerce_str]
    simp [getReadingLists, hok, hmsg]
  · intro h429
    have h4 : (resp.status == 429) = false := by simpa using h429
    simp [getRecommendations, hok, h4]

/-- C3 counterexample: a 500 response from the recommendation endpoint
raises the fixed message, which does not carry the HTTP status, so not every
operation raises an error whose message carries the status. -/
theorem c3_counterexample :
    (getRecommendations "q" ⟨500, "Internal Server Error", .ok (Json.obj [])⟩
        parseStub).result = .error "Failed to get recommendations" ∧
    ¬ containsSubstr "500" "Failed to get recommendations" := by
  exact ⟨rfl, by decide⟩

theorem c3_error_status_witness :
    (∃ m, (getBooks ⟨404, "Not Found",
        .ok (Json.obj [("message", Json.str "Missing token")])⟩ parseStub).result
        = .error m ∧ containsSubstr (toString (404 : Nat)) m) ∧
    (getReadingLists ⟨404, "Not Found",
        .ok (Json.obj [("message", Json.str "Missing token")])⟩ parseStub).result
      = .error ("Failed to fetch reading lists: " ++ toString (404 : Nat) ++ " "
          ++ "Not Found" ++ " - " ++ "Missing token") ∧
    (getRecommendations "q" ⟨500, "Internal Server Error", .ok (Json.obj [])⟩
        parseStub).result = .error "Failed to get recommendations" := by
  have h := c3_error_status ⟨404, "Not Found",
      .ok (Json.obj [("message", Json.str "Missing token")])⟩ parseStub
      (Json.obj []) (Json.obj []) (Json.obj []) "id1" "b1" "q" (by decide)
  have h500 := c3_error_status ⟨500, "Internal Server Error", .ok (Json.obj [])⟩
      parseStub (Json.obj []) (Json.obj []) (Json.obj []) "id1" "b1" "q" (by decide)
  obtain ⟨h1, _, _, _, _, _, _, _, _, _, h11, _⟩ := h
  obtain ⟨_, _, _, _, _, _, _, _, _, _, _, k12⟩ := h500
  exact ⟨h1, h11 (Json.obj [("message", Json.str "Missing token")]) "Missing token"
    rfl rfl (by decide), k12 (by decide)⟩
